import Mathlib

/-!
Shallow embedding of the VerifyFlow front-end logic (src/web/script.js and
the reduced variant src/unnamed/part_000): location bucketing, hint-family
selection, hint generation, severity filtering, the order-number validator
and the plain-text report exporter.  JavaScript strings are modelled as
Lean `String`, absent object fields as `Option`, JS truthiness of string
fields as "present and non-empty".
-/

namespace VerifyFlow

/-- Characters removed by JavaScript `String.prototype.trim` (the `\s` class). -/
def isJsWhitespace (c : Char) : Bool :=
  c.val == 0x09 || c.val == 0x0A || c.val == 0x0B || c.val == 0x0C || c.val == 0x0D ||
  c.val == 0x20 || c.val == 0xA0 || c.val == 0x1680 ||
  decide (0x2000 ≤ c.val ∧ c.val ≤ 0x200A) || c.val == 0x2028 || c.val == 0x2029 ||
  c.val == 0x202F || c.val == 0x205F || c.val == 0x3000 || c.val == 0xFEFF

/-- JavaScript `s.trim()`: drop leading and trailing whitespace. -/
def jsTrim (s : String) : String :=
  ⟨((s.data.dropWhile isJsWhitespace).reverse.dropWhile isJsWhitespace).reverse⟩

/-- JavaScript `toLowerCase` on the character ranges this code base uses
(ASCII letters and Cyrillic А-Я, Ё). -/
def jsCharToLower (c : Char) : Char :=
  if 0x41 ≤ c.val ∧ c.val ≤ 0x5A then Char.ofNat (c.toNat + 0x20)
  else if 0x410 ≤ c.val ∧ c.val ≤ 0x42F then Char.ofNat (c.toNat + 0x20)
  else if c.val = 0x401 then Char.ofNat 0x451
  else c

/-- JavaScript `toUpperCase` on the character ranges this code base uses. -/
def jsCharToUpper (c : Char) : Char :=
  if 0x61 ≤ c.val ∧ c.val ≤ 0x7A then Char.ofNat (c.toNat - 0x20)
  else if 0x430 ≤ c.val ∧ c.val ≤ 0x44F then Char.ofNat (c.toNat - 0x20)
  else if c.val = 0x451 then Char.ofNat 0x401
  else c

/-- JavaScript `s.toLowerCase()`. -/
def jsLower (s : String) : String := ⟨s.data.map jsCharToLower⟩

/-- JavaScript `s.toUpperCase()`. -/
def jsUpper (s : String) : String := ⟨s.data.map jsCharToUpper⟩

/-- Does the first list start with the second one? -/
def leadsWith : List Char → List Char → Bool
  | [], _ => true
  | _ :: _, [] => false
  | a :: as, b :: bs => a == b && leadsWith as bs

/-- Does the second list contain the first as a contiguous run? -/
def listContains (needle : List Char) : List Char → Bool
  | [] => needle.isEmpty
  | c :: t => leadsWith needle (c :: t) || listContains needle t

/-- JavaScript `hay.includes(needle)`. -/
def strIncludes (hay needle : String) : Bool := listContains needle.data hay.data

/-- JavaScript `c.repeat(n)` for a single character. -/
def repeatChar (c : Char) (n : Nat) : String := ⟨List.replicate n c⟩

/-- JavaScript `s.split(sep)` for a one-character separator. -/
def splitCharAux (sep : Char) : List Char → List Char → List (List Char)
  | [], acc => [acc.reverse]
  | c :: t, acc =>
    if c == sep then acc.reverse :: splitCharAux sep t [] else splitCharAux sep t (c :: acc)

/-- JavaScript `s.split(sep)` for a one-character separator. -/
def jsSplitChar (s : String) (sep : Char) : List String :=
  (splitCharAux sep s.data []).map (fun l => ⟨l⟩)

/-- JavaScript `s.substring(0, n)`. -/
def strTake (s : String) (n : Nat) : String := ⟨s.data.take n⟩

/-- JavaScript truthiness of an optional string field: present and non-empty. -/
def optTruthy : Option String → Bool
  | none => false
  | some s => !(s == "")

/-- JavaScript `x || d` for an optional string `x`. -/
def strOr (o : Option String) (d : String) : String :=
  match o with
  | none => d
  | some s => if s == "" then d else s

/-- An audit finding as received from the service (src/web/script.js, §3 of the spec). -/
structure Issue where
  message : Option String
  severity : Option String
  location : Option String
  rule : Option String
  evidence : Option String
  how_to_fix : Option String
deriving DecidableEq

/-- The per-severity counters of a report (`report.summary`). -/
structure Summary where
  critical : Option Nat
  warning : Option Nat
  info : Option Nat
  total : Option Nat
deriving DecidableEq

/-- A user annotation (`comments` array entries). -/
structure Comment where
  text : String
  timestamp : String
deriving DecidableEq

/-- The default summary object `{critical:0, warning:0, info:0, total:0}`
used when `report.summary` is absent. -/
def defaultSummary : Summary := ⟨some 0, some 0, some 0, some 0⟩

/-- The displayed total violation count: `const s = report.summary || {... total:0};
const total = (s.total ?? issues.length ?? 0)` (script.js lines 406-413,
part_000 lines 47-54). -/
def displayedTotal (summary : Option Summary) (issues : List Issue) : Nat :=
  ((Option.getD summary defaultSummary).total).getD issues.length

/-- Severity label shown next to an issue (`sevLabel`). -/
def sevLabel (sev : String) : String :=
  if sev == "critical" then "Критично"
  else if sev == "warning" then "Предупреждение"
  else if sev == "info" then "Информация"
  else "ОК"

/-- The label a rendered issue gets: `sevLabel((it.severity || "info").toLowerCase())`
(script.js lines 478 and 621, part_000 lines 107 and 113). -/
def displaySevLabel (it : Issue) : String :=
  sevLabel (jsLower (strOr it.severity "info"))

/-- The severity filter of `renderReport` (script.js lines 464-467,
part_000 lines 93-96): `issues.filter(it => currentFilter === "all" ? true :
(it.severity || "").toLowerCase() === currentFilter)`. -/
def filterIssues (issues : List Issue) (currentFilter : String) : List Issue :=
  issues.filter (fun it =>
    if currentFilter == "all" then true
    else jsLower (strOr it.severity "") == currentFilter)

/-- Spec-side view, written from the spec words of §4.3: the issues whose
`severity` equals the state, or all issues when the state is `all`. -/
def specVisibleIssues (issues : List Issue) (st : String) : List Issue :=
  if st == "all" then issues else issues.filter (fun it => it.severity == some st)

/-- Location bucket of one issue, from `getLocationSummary` (script.js lines
297-323) and the identical loop of `downloadReportWithComments` (lines
99-118): skip the issue when `issue.location` is falsy; route to the
"Ошибки ФИО" bucket when the message contains "ФИО" or "фио"; otherwise map
the token. -/
def bucketName (it : Issue) : Option String :=
  match it.location with
  | none => none
  | some loc =>
    if loc == "" then none
    else some (
      if optTruthy it.message &&
          (strIncludes (it.message.getD "") "ФИО" || strIncludes (it.message.getD "") "фио") then
        "Ошибки ФИО"
      else if loc == "title_page" then "Титульная страница"
      else if strIncludes loc "page:" then "Страница " ++ (jsSplitChar loc ':').getD 1 ""
      else if loc == "calendar_plan_table" then "Таблица календарного плана"
      else if loc == "document" then "Основной текст"
      else loc)

/-- Insertion-ordered counter bump, modelling
`locationCounts[name] = (locationCounts[name] || 0) + 1` on a JS object
(string keys keep insertion order). -/
def bumpCount (counts : List (String × Nat)) (key : String) : List (String × Nat) :=
  match counts with
  | [] => [(key, 1)]
  | (k, n) :: t => if k == key then (k, n + 1) :: t else (k, n) :: bumpCount t key

/-- The location distribution: bucket label to issue count, in first-seen order. -/
def locationCounts (issues : List Issue) : List (String × Nat) :=
  issues.foldl (fun counts it =>
    match bucketName it with
    | none => counts
    | some name => bumpCount counts name) []

/-- The seven name-family keywords checked (case-sensitively) on the raw
message (script.js lines 505-513 and 144-152). -/
def fioKeywordB (m : String) : Bool :=
  strIncludes m "ФИО" || strIncludes m "фио" || strIncludes m "Фамилия" ||
  strIncludes m "студент" || strIncludes m "руководитель" ||
  strIncludes m "падеж" || strIncludes m "сокращени"

/-- The name-format family guard: `it.message && (…keywords…)`. -/
def fioFamilyB (it : Issue) : Bool :=
  optTruthy it.message && fioKeywordB (it.message.getD "")

/-- The order-number family guard (script.js lines 541-546):
`it.message && (… "номер приказа" || "приказ" || "распоряжение" ||
(it.rule && it.rule.includes("OrderNumber")))`. -/
def orderFamilyB (it : Issue) : Bool :=
  optTruthy it.message &&
    (strIncludes (it.message.getD "") "номер приказа" ||
     strIncludes (it.message.getD "") "приказ" ||
     strIncludes (it.message.getD "") "распоряжение" ||
     (optTruthy it.rule && strIncludes (it.rule.getD "") "OrderNumber"))

/-- The hint family an issue is dispatched to. -/
inductive HintFamily where
  | fio
  | orderNum
  | genericLoc
  | nofam
deriving DecidableEq

/-- Family dispatch of `renderReport` (script.js lines 504-616): name-format
first, then order-number, then the location badge, else nothing. -/
def selectFamily (it : Issue) : HintFamily :=
  if fioFamilyB it then HintFamily.fio
  else if orderFamilyB it then HintFamily.orderNum
  else if optTruthy it.location then HintFamily.genericLoc
  else HintFamily.nofam

/-- On-screen name-format hint `getFIOHint` (script.js lines 347-379). -/
def getFIOHint (errorMessage : String) (evidence : Option String) : String :=
  let message := jsLower errorMessage
  if strIncludes message "не найдено" &&
      (strIncludes message "обучающегося" || strIncludes message "студент") then
    "Ищите ФИО студента после слов \x27обучающегося\x27, \x27допустить\x27, \x27студента\x27 на титульной странице"
  else if strIncludes message "не найдено" &&
      (strIncludes message "руководителя" || strIncludes message "руководитель") then
    "Ищите ФИО руководителя после слов \x27руководитель\x27, \x27научный руководитель\x27 на титульной странице"
  else if strIncludes message "сокращения" || strIncludes message "и.о." ||
      strIncludes message "и. о." then
    "Найдите все сокращения вида \x27И.И. Иванов\x27 и замените на полное имя \x27Иван Иванович Иванов\x27"
  else if strIncludes message "падеж" || strIncludes message "падеже" then
    "Проверьте падеж ФИО после предлогов: \x27от студента\x27 → родительный падеж"
  else if strIncludes message "фио" || strIncludes message "фамилия" then
    (if optTruthy evidence && !(evidence.getD "" == "—") && !(evidence.getD "" == "-") &&
        strIncludes (evidence.getD "") "..." then
      "Ищите в тексте: \x22" ++ strTake (evidence.getD "") 60 ++ "...\x22"
    else "Проверьте все упоминания ФИО на титульной странице и в документах")
  else "Проверьте правильность написания ФИО в документе"

/-- On-screen order-number hint `getOrderNumberHint` (script.js lines 381-401). -/
def getOrderNumberHint (errorMessage : String) (evidence : Option String) : String :=
  let message := jsLower errorMessage
  if strIncludes message "не найден номер" then
    "Ищите номер приказа/распоряжения в шапке документа, обычно в формате: \x27№ 33.02-05/334\x27 или \x27Приказ №123/2024\x27"
  else if strIncludes message "нестандартный формат" then
    "Проверьте формат номера. Примеры правильных форматов:\n• 33.02-05/334 (код подразделения-номер/порядковый)\n• 123/2024 (номер/год)\n• 456-р (номер-буква указа)"
  else if strIncludes message "недопустимые символы" then
    "В номере приказа разрешены только: цифры 0-9, точка ., тире -, слэш /. Удалите другие символы."
  else if strIncludes message "слишком короткий" then
    "Номер приказа должен содержать минимум 3 символа (например, \x271/24\x27 — неправильно, \x27123/2024\x27 — правильно)"
  else "Проверьте номер приказа/распоряжения в документе"

/-- Export sub-hint: not-found student (script.js line 158). -/
def fioStudentHintText : String :=
  "ГДЕ ИСКАТЬ: Ищите ФИО студента после слов \x27обучающегося\x27, \x27допустить\x27, \x27студента\x27 на титульной странице\n"

/-- Export sub-hint: not-found supervisor (script.js line 161). -/
def fioSupervisorHintText : String :=
  "ГДЕ ИСКАТЬ: Ищите ФИО руководителя после слов \x27руководитель\x27, \x27научный руководитель\x27 на титульной странице\n"

/-- Export sub-hint: abbreviations (script.js lines 166-168). -/
def fioAbbrevHintText : String :=
  "ГДЕ ИСКАТЬ: Найдите все сокращения вида \x27И.И. Иванов\x27 в документе\n" ++
  "ПРАВИЛЬНЫЙ ФОРМАТ: \x27Иван Иванович Иванов\x27 (полное имя без точек)\n" ++
  "ПРИМЕР: ❌ И.И. Иванов → ✅ Иван Иванович Иванов\n"

/-- Export sub-hint: grammatical case (script.js lines 172-174). -/
def fioCaseHintText : String :=
  "ГДЕ ИСКАТЬ: Проверьте падеж ФИО после предлогов в документе\n" ++
  "ПРАВИЛО: \x27от студента\x27 требует родительный падеж\n" ++
  "ПРИМЕР: ❌ от студент Иванов Иван → ✅ от студента Иванова Ивана\n"

/-- Export sub-hint: generic name fallback (script.js line 178). -/
def fioFallbackHintText : String :=
  "ГДЕ ИСКАТЬ: Проверьте все упоминания ФИО на титульной странице\n"

/-- Name-family hint of the export path (script.js lines 154-179).  Each
sub-rule ASSIGNS `detailedHint` (it does not append to it), so a later
match overwrites an earlier one. -/
def exportGetFIOHint (msg : String) : String :=
  let message := jsLower msg
  let h : String :=
    if strIncludes message "не найдено" then
      (let h1 := if strIncludes message "обучающегося" || strIncludes message "студент" then
          fioStudentHintText else ""
       if strIncludes message "руководителя" || strIncludes message "руководитель" then
          fioSupervisorHintText else h1)
    else ""
  let h :=
    if strIncludes message "сокращения" || strIncludes message "и.о." ||
        strIncludes message "и. о." then fioAbbrevHintText else h
  let h :=
    if strIncludes message "падеж" || strIncludes message "падеже" then fioCaseHintText else h
  let h :=
    if h == "" && (strIncludes message "фио" || strIncludes message "фамилия") then
      fioFallbackHintText
    else h
  h

/-- Location line of the export path (script.js lines 182-196); note it has
no fallback branch for an unrecognized token. -/
def exportLocationHint (loc : String) : String :=
  if loc == "title_page" then
    "МЕСТОПОЛОЖЕНИЕ: Титульная страница (первая страница документа)\n"
  else if loc == "calendar_plan_table" then
    "МЕСТОПОЛОЖЕНИЕ: Таблица календарного плана\n"
  else if strIncludes loc "page:" then
    "МЕСТОПОЛОЖЕНИЕ: Страница " ++ (jsSplitChar loc ':').getD 1 "" ++ "\n"
  else if loc == "document" then
    "МЕСТОПОЛОЖЕНИЕ: Основной текст документа\n"
  else ""

/-- The per-issue `detailedHint` of `downloadReportWithComments`
(script.js lines 140-211): family dispatch, then the evidence, how-to-fix
and rule blocks appended when present. -/
def issueDetailedHint (it : Issue) : String :=
  let h : String :=
    if fioFamilyB it then exportGetFIOHint (it.message.getD "")
    else if optTruthy it.location then exportLocationHint (it.location.getD "")
    else ""
  let h :=
    if optTruthy it.evidence && !(it.evidence.getD "" == "—") &&
        !(it.evidence.getD "" == "-") then
      h ++ "КОНТЕКСТ: " ++ it.evidence.getD "" ++ "\n"
    else h
  let h :=
    if optTruthy it.how_to_fix then h ++ "КАК ИСПРАВИТЬ: " ++ it.how_to_fix.getD "" ++ "\n"
    else h
  let h :=
    if optTruthy it.rule then h ++ "ПРАВИЛО: " ++ it.rule.getD "" ++ "\n"
    else h
  h

/-- A synthetic issue produced by `validateOrderNumber`. -/
structure ValidationIssue where
  severity : String
  message : String
  how_to_fix : String
  rule : String
deriving DecidableEq

/-- The result object of `validateOrderNumber`. -/
structure ValidationResult where
  isValid : Bool
  errors : List ValidationIssue
  warnings : List ValidationIssue
deriving DecidableEq

/-- Warning pushed for an empty/blank order number (script.js lines 819-824). -/
def orderMissingWarning : ValidationIssue :=
  ⟨"warning", "Не указан номер приказа/распоряжения",
   "Рекомендуется указать номер официального документа для отчётности",
   "ORDER_NUMBER_MISSING"⟩

/-- Error pushed when the trimmed input is shorter than 3 (lines 831-838). -/
def orderTooShortError : ValidationIssue :=
  ⟨"critical", "Номер приказа слишком короткий",
   "Номер должен содержать не менее 3 символов",
   "ORDER_NUMBER_TOO_SHORT"⟩

/-- Warning pushed when the format regex does not match (lines 841-849). -/
def orderFormatWarning : ValidationIssue :=
  ⟨"warning", "Номер приказа имеет нестандартный формат",
   "Рекомендуемый формат: \x27XXX/ГГГГ\x27 или \x27XXX/ГГГГ-ГГГГ\x27 (например, \x27123/2024\x27)",
   "ORDER_NUMBER_FORMAT_WARNING"⟩

/-- Error pushed when a blacklisted character occurs (lines 852-859). -/
def orderInvalidCharsError : ValidationIssue :=
  ⟨"critical", "Номер приказа содержит недопустимые символы",
   "Удалите специальные символы: < > # @ $ % ^ & * ( ) + = | \x7b \x7d [ ] : ; \x22 \x27 \x60 ~",
   "ORDER_NUMBER_INVALID_CHARS"⟩

/-- Is `c.val` in the closed range `[lo, hi]`? -/
def between (lo hi : UInt32) (c : Char) : Bool := decide (lo ≤ c.val ∧ c.val ≤ hi)

/-- A character of the class `[а-яА-Яa-zA-Z0-9\-\/\.\s]` of the format regex. -/
def isFormatClassChar (c : Char) : Bool :=
  between 0x430 0x44F c || between 0x410 0x42F c ||
  between 0x61 0x7A c || between 0x41 0x5A c || between 0x30 0x39 c ||
  c == '-' || c == '/' || c == '.' || isJsWhitespace c

/-- An ASCII digit. -/
def isDigitB (c : Char) : Bool := between 0x30 0x39 c

/-- Matches `\d{2,4}` against exactly this list. -/
def digitsGroup24 (l : List Char) : Bool :=
  (l.length == 2 || l.length == 3 || l.length == 4) && l.all isDigitB

/-- Matches `([-\/]\d{2,4})?$` against this suffix. -/
def formatTail (l : List Char) : Bool :=
  match l with
  | [] => true
  | c :: t => (c == '-' || c == '/') && digitsGroup24 t

/-- Matches `\d{2,4}([-\/]\d{2,4})?$` against this suffix (backtracking over
the length of the first digit group). -/
def formatAfterSlash (l : List Char) : Bool :=
  ((l.take 2).all isDigitB && decide (2 ≤ l.length) && formatTail (l.drop 2)) ||
  ((l.take 3).all isDigitB && decide (3 ≤ l.length) && formatTail (l.drop 3)) ||
  ((l.take 4).all isDigitB && decide (4 ≤ l.length) && formatTail (l.drop 4))

/-- Matches `[class]*\/\d{2,4}([-\/]\d{2,4})?$` against this suffix, trying
at each position both "separator slash here" and "one more class char". -/
def formatRest : List Char → Bool
  | [] => false
  | c :: t => (c == '/' && formatAfterSlash t) || (isFormatClassChar c && formatRest t)

/-- The anchored format regex
`/^[а-яА-Яa-zA-Z0-9\-\/\.\s]+\/\d{2,4}([-\/]\d{2,4})?$/` (script.js line 841). -/
def formatRegexTest (s : String) : Bool :=
  match s.data with
  | [] => false
  | c :: t => isFormatClassChar c && formatRest t

/-- The blacklist of `invalidCharRegex = /[<>#@$%^&*()+=|{}[\]:;"'`~]/`
(script.js line 852). -/
def invalidOrderChars : List Char :=
  ['<', '>', '#', '@', '$', '%', '^', '&', '*', '(', ')', '+', '=', '|',
   Char.ofNat 0x7B, Char.ofNat 0x7D, '[', ']', ':', ';',
   Char.ofNat 0x22, Char.ofNat 0x27, Char.ofNat 0x60, '~']

/-- Does the list hold a blacklisted character? -/
def hasInvalidChar (l : List Char) : Bool := l.any (fun c => invalidOrderChars.contains c)

/-- The Order Number Validator `validateOrderNumber` (script.js lines 814-867). -/
def validateOrderNumber (orderNumber : String) : ValidationResult :=
  if orderNumber == "" || jsTrim orderNumber == "" then
    ⟨true, [], [orderMissingWarning]⟩
  else
    let trimmed := jsTrim orderNumber
    let errors :=
      (if trimmed.length < 3 then [orderTooShortError] else []) ++
      (if hasInvalidChar trimmed.data then [orderInvalidCharsError] else [])
    let warnings := if !(formatRegexTest trimmed) then [orderFormatWarning] else []
    ⟨errors.length == 0, errors, warnings⟩

/-- Spec-side character set, written from the spec words of §4.4: letters
(Latin or Cyrillic), digits, space, period, hyphen and slash. -/
def specAllowedOrderChar (c : Char) : Bool :=
  between 0x41 0x5A c || between 0x61 0x7A c ||
  between 0x410 0x44F c || c.val == 0x401 || c.val == 0x451 ||
  between 0x30 0x39 c || c == ' ' || c == '.' || c == '-' || c == '/'

/-- JavaScript template interpolation of a possibly-undefined field: an
absent value prints as the string "undefined". -/
def optFieldText (o : Option String) : String := o.getD "undefined"

/-- Replaces every newline by newline plus three spaces, modelling
`detailedHint.replace(/\n/g, "\n   ")` (script.js line 214). -/
def indentLines : List Char → List Char
  | [] => []
  | c :: t =>
    if c == '\n' then '\n' :: ' ' :: ' ' :: ' ' :: indentLines t
    else c :: indentLines t

/-- Header of the exported report (script.js lines 73-85). -/
def exportHeader (now : String) (profile : Option String) (fileName : Option String)
    (orderNumber : String) : String :=
  "ОТЧЁТ ПРОВЕРКИ ДОКУМЕНТА\n" ++
  ("Дата проверки: " ++ now ++ "\n" ++
   ("Профиль проверки: " ++ strOr profile "не указан" ++ "\n" ++
    ("Файл: " ++ (match fileName with | some n => n | none => "не указан") ++ "\n" ++
     ((if !(jsTrim orderNumber == "") then "Номер приказа: " ++ jsTrim orderNumber ++ "\n"
       else "") ++
      ("\n" ++ repeatChar '=' 60 ++ "\n\n")))))

/-- Summary block of the exported report (script.js lines 88-93). -/
def summaryBlock (s : Summary) : String :=
  "СВОДКА:\n" ++
  ("Всего нарушений: " ++ toString (s.total.getD 0) ++ "\n" ++
   ("Критичных: " ++ toString (s.critical.getD 0) ++ "\n" ++
    ("Предупреждений: " ++ toString (s.warning.getD 0) ++ "\n" ++
     ("Информационных: " ++ toString (s.info.getD 0) ++ "\n\n"))))

/-- Distribution entries or the fixed fallback line (script.js lines 120-126). -/
def locationLines (issues : List Issue) : String :=
  let counts := locationCounts issues
  if counts.isEmpty then "Ошибки распределены по всему документу\n"
  else String.join (counts.map (fun p => "• " ++ p.1 ++ ": " ++ toString p.2 ++ " ошибок\n"))

/-- One numbered entry of the detailed issue list (script.js lines 135-218). -/
def exportIssueEntry (i : Nat) (it : Issue) : String :=
  let sev := strOr it.severity "info"
  let hint := issueDetailedHint it
  toString (i + 1) ++ ". [" ++ jsUpper (sevLabel sev) ++ "] " ++
    strOr it.message "Нарушение" ++ "\n" ++
  (if hint == "" then "" else "   " ++ String.mk (indentLines hint.data)) ++ "\n"

/-- Detailed issue section, emitted only when at least one issue exists
(script.js lines 131-219). -/
def issuesSection (issues : List Issue) : String :=
  if 0 < issues.length then
    "ПОДРОБНЫЙ СПИСОК НАРУШЕНИЙ:\n" ++ (repeatChar '─' 40 ++ "\n\n" ++
      String.join (issues.enum.map (fun p => exportIssueEntry p.1 p.2)))
  else ""

/-- Comments section, emitted only when at least one comment exists
(script.js lines 222-231). -/
def commentsSection (comments : List Comment) : String :=
  if 0 < comments.length then
    "\n" ++ (repeatChar '=' 60 ++ "\n\n" ++ ("КОММЕНТАРИИ К ПРОВЕРКЕ:\n" ++
      (repeatChar '─' 40 ++ "\n\n" ++
       String.join (comments.enum.map (fun p =>
         "КОММЕНТАРИЙ #" ++ toString (p.1 + 1) ++ " (" ++ p.2.timestamp ++ "):\n" ++
         p.2.text ++ "\n\n")))))
  else ""

/-- Checklist section, always emitted, one line per issue (script.js lines
234-240). -/
def checklistSection (issues : List Issue) : String :=
  "\n" ++ (repeatChar '=' 60 ++ "\n\n" ++ ("ЧЕК-ЛИСТ ДЛЯ ИСПРАВЛЕНИЯ:\n" ++
    (repeatChar '─' 40 ++ "\n\n" ++
     String.join (issues.enum.map (fun p =>
       "[ ] " ++ toString (p.1 + 1) ++ ". " ++ optFieldText p.2.message ++ "\n")))))

/-- Fixed instructional footer (script.js lines 242-247). -/
def exportFooter : String :=
  "\n\n" ++ "ИНСТРУКЦИЯ:\n" ++
  ("1. Откройте документ в Microsoft Word или другом редакторе\n" ++
   ("2. Исправьте ошибки согласно списку выше\n" ++
    ("3. Отметьте галочкой исправленные пункты\n" ++
     ("4. Перепроверьте документ через VerifyFlow\n" ++
      "5. Сохраните исправленную версию\n"))))

/-- The full text document assembled by `downloadReportWithComments`
(script.js lines 67-247), with the ambient values (current time, chosen
file, order-number field, last report, comment list) passed explicitly. -/
def exportReport (now : String) (profile : Option String) (fileName : Option String)
    (orderNumber : String) (summary : Option Summary) (issues : List Issue)
    (comments : List Comment) : String :=
  exportHeader now profile fileName orderNumber ++
  (summaryBlock (summary.getD defaultSummary) ++
   ("РАСПРЕДЕЛЕНИЕ ОШИБОК ПО ДОКУМЕНТУ:\n" ++
    (repeatChar '─' 40 ++ "\n" ++
     (locationLines issues ++
      ("\n" ++ (repeatChar '=' 60 ++ "\n\n" ++
       (issuesSection issues ++
        (commentsSection comments ++
         (checklistSection issues ++ exportFooter)))))))))

/-! Helper lemmas shared by the claim theorems. -/

theorem strAppendEqEmpty (a b : String) : a ++ b = "" ↔ a = "" ∧ b = "" := by
  rcases a with ⟨la⟩
  rcases b with ⟨lb⟩
  constructor
  · intro h
    have hd : la ++ lb = ([] : List Char) := congrArg String.data h
    rcases List.append_eq_nil.mp hd with ⟨h1, h2⟩
    exact ⟨by rw [h1], by rw [h2]⟩
  · rintro ⟨h1, h2⟩
    rw [h1, h2]; rfl

theorem strAppendNeEmptyRight (a b : String) (h : b ≠ "") : a ++ b ≠ "" := by
  intro hh
  exact h ((strAppendEqEmpty a b).mp hh).2

theorem strAppendNeEmptyLeft (a b : String) (h : a ≠ "") : a ++ b ≠ "" := by
  intro hh
  exact h ((strAppendEqEmpty a b).mp hh).1

theorem strAppendAssoc (a b c : String) : a ++ b ++ c = a ++ (b ++ c) := by
  rcases a with ⟨la⟩
  rcases b with ⟨lb⟩
  rcases c with ⟨lc⟩
  show String.mk ((la ++ lb) ++ lc) = String.mk (la ++ (lb ++ lc))
  rw [List.append_assoc]

theorem strJoinNil : String.join ([] : List String) = "" := rfl

theorem strEmptyAppend (a : String) : "" ++ a = a := by
  rcases a with ⟨la⟩
  show String.mk ([] ++ la) = String.mk la
  rw [List.nil_append]

theorem strAppendEmpty (a : String) : a ++ "" = a := by
  rcases a with ⟨la⟩
  show String.mk (la ++ []) = String.mk la
  rw [List.append_nil]

/-- C4: for canonical filter states and severities, the derived view equals
the spec-side view (the issues whose severity equals the state, all of them
for the state all); refiltering with the same state changes nothing; the
state all returns the full sequence in original order; and the view is a
sublist of the untouched input sequence. -/
theorem c4_filter_pure (issues : List Issue) (st : String)
    (hst : st = "all" ∨ st = "critical" ∨ st = "warning" ∨ st = "info")
    (hsev : ∀ it ∈ issues, it.severity = none ∨ it.severity = some "critical" ∨
      it.severity = some "warning" ∨ it.severity = some "info") :
    filterIssues issues st = specVisibleIssues issues st ∧
    filterIssues (filterIssues issues st) st = filterIssues issues st ∧
    filterIssues issues "all" = issues ∧
    (filterIssues issues st).Sublist issues := by
  refine ⟨?_, ?_, ?_, ?_⟩
  · rcases hst with h | h | h | h <;> subst h
    · simp [filterIssues, specVisibleIssues]
    all_goals
      simp only [filterIssues, specVisibleIssues]
      rw [if_neg (by decide)]
      refine List.filter_congr ?_
      intro it hit
      rcases hsev it hit with h | h | h | h <;> rw [h] <;> rfl
  · simp only [filterIssues, List.filter_filter]
    refine List.filter_congr ?_
    intro it _
    rcases h : (if st == "all" then true
          else jsLower (strOr it.severity "") == st) <;> simp [h]
  · simp [filterIssues]
  · exact List.filter_sublist issues

/-- Witness for C4 at a concrete issue list and the critical filter state. -/
theorem c4_filter_pure_witness :
    filterIssues [⟨some "m", some "critical", none, none, none, none⟩,
        ⟨some "n", some "info", none, none, none, none⟩] "critical" =
      specVisibleIssues [⟨some "m", some "critical", none, none, none, none⟩,
        ⟨some "n", some "info", none, none, none, none⟩] "critical" :=
  (c4_filter_pure _ "critical" (by simp) (by decide)).1

/-- C5 counterexample: a report whose whole summary object is absent and
which carries one issue displays a total of 0, not issues.length = 1. -/
theorem c5_total_counterexample :
    displayedTotal none [⟨none, none, none, none, none, none⟩] = 0 ∧
    displayedTotal none [⟨none, none, none, none, none, none⟩] ≠
      ([⟨none, none, none, none, none, none⟩] : List Issue).length := by
  decide

/-- C5 amended: when the summary object is present but its total field is
absent, the displayed total falls back to issues.length; an entirely absent
summary is replaced by the default object whose total is 0. -/
theorem c5_total_amended (s : Summary) (issues : List Issue) (h : s.total = none) :
    displayedTotal (some s) issues = issues.length := by
  simp [displayedTotal, h]

/-- Witness for C5 amended at a concrete summary lacking a total. -/
theorem c5_total_amended_witness :
    displayedTotal (some ⟨some 1, some 2, some 3, none⟩)
      [⟨none, none, none, none, none, none⟩] = 1 :=
  (c5_total_amended ⟨some 1, some 2, some 3, none⟩
    [⟨none, none, none, none, none, none⟩] rfl).trans rfl

/-- C9: a blank order number yields isValid true with no errors and exactly
the one missing-number warning, and for every input isValid holds exactly
when the error list is empty (warnings never affect validity). -/
theorem c9_validator_blank_and_validity (s : String) :
    (jsTrim s = "" → validateOrderNumber s = ⟨true, [], [orderMissingWarning]⟩) ∧
    ((validateOrderNumber s).isValid = true ↔ (validateOrderNumber s).errors = []) := by
  unfold validateOrderNumber
  by_cases h : (s == "" || jsTrim s == "") = true
  · simp [h]
  · have h2 : ¬jsTrim s = "" := by
      intro hh
      exact h (by simp [hh])
    rw [if_neg (by simp [h])]
    refine ⟨fun hh => absurd hh h2, ?_⟩
    simp [List.length_eq_zero]

/-- Witness for C9 at the blank input and at a concrete non-blank input. -/
theorem c9_validator_witness :
    validateOrderNumber "   " = ⟨true, [], [orderMissingWarning]⟩ ∧
    ((validateOrderNumber "ab").isValid = true ↔ (validateOrderNumber "ab").errors = []) :=
  ⟨(c9_validator_blank_and_validity "   ").1 (by decide),
   (c9_validator_blank_and_validity "ab").2⟩

/-- C10: an issue without a severity field is excluded from the view of each
specific filter state, the all state keeps the full list, and the issue is
labelled with the info label when displayed. -/
theorem c10_missing_severity (issues : List Issue) (it : Issue) (st : String)
    (hsev : it.severity = none)
    (hst : st = "critical" ∨ st = "warning" ∨ st = "info") :
    it ∉ filterIssues issues st ∧ filterIssues issues "all" = issues ∧
    displaySevLabel it = "Информация" := by
  refine ⟨?_, by simp [filterIssues], ?_⟩
  · intro hmem
    have hp := (List.mem_filter.mp hmem).2
    rcases hst with h | h | h <;> subst h <;> rw [hsev] at hp <;> simp at hp <;>
      revert hp <;> decide
  · unfold displaySevLabel
    rw [hsev]
    decide

/-- Witness for C10 at a concrete list and the warning filter state. -/
theorem c10_missing_severity_witness :
    (⟨some "m", none, none, none, none, none⟩ : Issue) ∉
      filterIssues [⟨some "m", none, none, none, none, none⟩] "warning" ∧
    displaySevLabel ⟨some "m", none, none, none, none, none⟩ = "Информация" :=
  ⟨(c10_missing_severity [⟨some "m", none, none, none, none, none⟩]
      ⟨some "m", none, none, none, none, none⟩ "warning" rfl (by simp)).1,
   (c10_missing_severity [⟨some "m", none, none, none, none, none⟩]
      ⟨some "m", none, none, none, none, none⟩ "warning" rfl (by simp)).2.2⟩

/-- C3 counterexample: the comma is outside the spec's allowed character set,
the trimmed input 12,34 provably carries such a character, yet the validator
reports no error at all — in particular no invalid-characters critical
error. -/
theorem c3_invalid_chars_counterexample :
    specAllowedOrderChar ',' = false ∧
    ((jsTrim "12,34").data.any (fun c => !(specAllowedOrderChar c))) = true ∧
    (validateOrderNumber "12,34").errors = [] := by
  decide

/-- C3 amended: for every non-blank input, the validator reports the
critical invalid-characters error exactly when the trimmed input holds a
character of the fixed blacklist of the code
(angle brackets, hash, at, dollar, percent, caret, ampersand, star,
parentheses, plus, equals, pipe, braces, square brackets, colon, semicolon,
quotes, backquote, tilde) — not the complement of the allowed set. -/
theorem c3_invalid_chars_amended (s : String) (h : jsTrim s ≠ "") :
    orderInvalidCharsError ∈ (validateOrderNumber s).errors ↔
      hasInvalidChar (jsTrim s).data = true := by
  have hs : s ≠ "" := by
    intro hh
    exact h (by rw [hh]; decide)
  have hcond : (s == "" || jsTrim s == "") = false := by
    simp [hs, h]
  unfold validateOrderNumber
  rw [if_neg (by simp [hcond])]
  by_cases hinv : hasInvalidChar (jsTrim s).data = true <;>
    by_cases hlen : (jsTrim s).length < 3 <;>
      simp [hinv, hlen, orderInvalidCharsError, orderTooShortError]

/-- Witness for C3 amended at a concrete input holding a hash sign. -/
theorem c3_invalid_chars_amended_witness :
    orderInvalidCharsError ∈ (validateOrderNumber "12#34").errors :=
  (c3_invalid_chars_amended "12#34" (by decide)).mpr (by decide)

/-- C1 counterexample: a message holding the surname keyword (and matching
the name-keyword family) whose issue carries the token page:3 is bucketed
as page 3, not as the name-errors bucket. -/
theorem c1_surname_bucket_counterexample :
    fioKeywordB "Фамилия не найдена" = true ∧
    bucketName ⟨some "Фамилия не найдена", none, some "page:3", none, none, none⟩ =
      some "Страница 3" ∧
    bucketName ⟨some "Фамилия не найдена", none, some "page:3", none, none, none⟩ ≠
      some "Ошибки ФИО" := by
  decide

/-- C1 amended: only a message holding the literal full-name marker (ФИО or
фио) routes the issue to the name-errors bucket regardless of its location
token; the other name-related keywords do not affect bucketing. -/
theorem c1_fio_bucket_amended (it : Issue) (m loc : String)
    (hm : it.message = some m) (hl : it.location = some loc) (hloc : loc ≠ "")
    (hkw : strIncludes m "ФИО" = true ∨ strIncludes m "фио" = true) :
    bucketName it = some "Ошибки ФИО" := by
  have hm0 : m ≠ "" := by
    intro hh
    subst hh
    rcases hkw with h | h <;> revert h <;> decide
  rcases it with ⟨msg, sev, locf, rl, ev, how⟩
  replace hm : msg = some m := hm
  replace hl : locf = some loc := hl
  subst hm
  subst hl
  have ht : optTruthy (some m) = true := by
    simp [optTruthy, hm0]
  rcases hkw with h | h <;> simp [bucketName, hloc, ht, h]

/-- Witness for C1 amended at a message holding ФИО and the token page:3. -/
theorem c1_fio_bucket_amended_witness :
    bucketName ⟨some "ФИО не найдено", none, some "page:3", none, none, none⟩ =
      some "Ошибки ФИО" :=
  c1_fio_bucket_amended ⟨some "ФИО не найдено", none, some "page:3", none, none, none⟩
    "ФИО не найдено" "page:3" rfl rfl (by decide) (Or.inl (by decide))

/-- C2 counterexample: an issue whose message matches no hint family and
which has no location, no evidence, no fix instruction and no rule receives
an empty hint block — there is no top-level generic fallback. -/
theorem c2_empty_hint_counterexample :
    issueDetailedHint ⟨some "Некорректный размер шрифта", none, none, none, none, none⟩ =
      "" := by
  decide

/-- C2 amended: hint generation is not total; the hint block is guaranteed
non-empty only when the issue carries a fix instruction, a rule identifier,
or a non-placeholder evidence text, each of which is appended
unconditionally. -/
theorem c2_hint_nonempty_amended (it : Issue)
    (h : optTruthy it.how_to_fix = true ∨ optTruthy it.rule = true ∨
      (optTruthy it.evidence && !(it.evidence.getD "" == "—") &&
       !(it.evidence.getD "" == "-")) = true) :
    issueDetailedHint it ≠ "" := by
  unfold issueDetailedHint
  dsimp only
  by_cases hr : optTruthy it.rule = true
  · simp only [hr, if_true]
    exact strAppendNeEmptyRight _ "\n" (by decide)
  · rw [if_neg hr]
    by_cases hh : optTruthy it.how_to_fix = true
    · simp only [hh, if_true]
      exact strAppendNeEmptyRight _ "\n" (by decide)
    · rw [if_neg hh]
      have he : (optTruthy it.evidence && !(it.evidence.getD "" == "—") &&
          !(it.evidence.getD "" == "-")) = true := by
        rcases h with h | h | h
        · exact absurd h hh
        · exact absurd h hr
        · exact h
      simp only [he, if_true]
      exact strAppendNeEmptyRight _ "\n" (by decide)

/-- Witness for C2 amended at an issue carrying only a rule identifier. -/
theorem c2_hint_nonempty_amended_witness :
    issueDetailedHint ⟨some "Некорректный размер шрифта", none, none,
      some "FontSize", none, none⟩ ≠ "" :=
  c2_hint_nonempty_amended ⟨some "Некорректный размер шрифта", none, none,
    some "FontSize", none, none⟩ (Or.inr (Or.inl (by decide)))

/-- C6 counterexample: two messages that differ only in letter case select
different hint families, so family selection is not case-insensitive and
not invariant under changing the letter case of the message. -/
theorem c6_case_sensitivity_counterexample :
    jsLower "Фамилия не найдена" = jsLower "фамилия не найдена" ∧
    selectFamily ⟨some "Фамилия не найдена", none, none, none, none, none⟩ =
      HintFamily.fio ∧
    selectFamily ⟨some "фамилия не найдена", none, none, none, none, none⟩ =
      HintFamily.nofam := by
  decide

/-- C6 amended: at most one hint family is selected, by case-sensitive
substring checks on the raw message (and rule): the name-format family
exactly when its keyword guard fires, the order-number family exactly when
the name guard fails and its own guard fires, the generic-location family
exactly when both guards fail and a location token is present, and no
family otherwise. -/
theorem c6_family_selection_amended (it : Issue) :
    (selectFamily it = HintFamily.fio ↔ fioFamilyB it = true) ∧
    (selectFamily it = HintFamily.orderNum ↔
      fioFamilyB it = false ∧ orderFamilyB it = true) ∧
    (selectFamily it = HintFamily.genericLoc ↔
      fioFamilyB it = false ∧ orderFamilyB it = false ∧ optTruthy it.location = true) ∧
    (selectFamily it = HintFamily.nofam ↔
      fioFamilyB it = false ∧ orderFamilyB it = false ∧ optTruthy it.location = false) := by
  unfold selectFamily
  cases h1 : fioFamilyB it <;> cases h2 : orderFamilyB it <;>
    cases h3 : optTruthy it.location <;> simp

set_option maxRecDepth 4096 in
/-- C7 counterexample: a message triggering both the not-found-student
sub-rule and the grammatical-case sub-rule yields exactly the case
sub-hint; the student sub-hint is overwritten, not concatenated. -/
theorem c7_subhint_overwrite_counterexample :
    strIncludes (jsLower "ФИО студента не найдено, падеж неверный") "не найдено" = true ∧
    strIncludes (jsLower "ФИО студента не найдено, падеж неверный") "студент" = true ∧
    strIncludes (jsLower "ФИО студента не найдено, падеж неверный") "падеж" = true ∧
    exportGetFIOHint "ФИО студента не найдено, падеж неверный" = fioCaseHintText ∧
    strIncludes (exportGetFIOHint "ФИО студента не найдено, падеж неверный")
      "Ищите ФИО студента" = false := by
  decide

/-- C7 amended: the name-family sub-rules assign rather than append, so a
message triggering more than one sub-rule keeps only the last triggered
sub-hint in evaluation order; whenever the grammatical-case sub-rule
triggers, the generated hint is exactly the case sub-hint even if the
student not-found sub-rule also triggered. -/
theorem c7_last_subhint_amended (msg : String)
    (hnf : strIncludes (jsLower msg) "не найдено" = true)
    (hstud : strIncludes (jsLower msg) "студент" = true)
    (hcase : strIncludes (jsLower msg) "падеж" = true) :
    exportGetFIOHint msg = fioCaseHintText := by
  have hne : (fioCaseHintText == "") = false := by decide
  unfold exportGetFIOHint
  dsimp only
  rw [hcase]
  simp [hne]

/-- Witness for C7 amended at a concrete message triggering three sub-rules. -/
theorem c7_last_subhint_amended_witness :
    exportGetFIOHint "ФИО студента не найдено, падеж неверный" = fioCaseHintText :=
  c7_last_subhint_amended "ФИО студента не найдено, падеж неверный"
    (by decide) (by decide) (by decide)

set_option maxRecDepth 8192 in
/-- C8 counterexample: exporting a concrete report with zero issues and
zero annotations yields a document without the detailed-issue-section
header, while the checklist header is present — the detailed issue section
is omitted, not emitted empty. -/
theorem c8_issue_section_omitted_counterexample :
    strIncludes (exportReport "01.01.2026" (some "default") (some "doc.docx") "" none [] [])
      "ПОДРОБНЫЙ СПИСОК НАРУШЕНИЙ" = false ∧
    strIncludes (exportReport "01.01.2026" (some "default") (some "doc.docx") "" none [] [])
      "ЧЕК-ЛИСТ ДЛЯ ИСПРАВЛЕНИЯ" = true := by
  decide

/-- C8 amended: exporting any report with zero issues and zero annotations
emits, in this order, the header, the summary, the location distribution
with the fixed spread-across-the-document line, the checklist header (with
no items) and the fixed instructional footer; the detailed issue section
and the annotations section are omitted entirely. -/
theorem c8_export_sections_amended (now orderNumber : String)
    (profile fileName : Option String) (summary : Option Summary) :
    ∃ p1 p2 p3 p4 p5 p6 : String,
      exportReport now profile fileName orderNumber summary [] [] =
        "ОТЧЁТ ПРОВЕРКИ ДОКУМЕНТА\n" ++ p1 ++ "СВОДКА:\n" ++ p2 ++
        "РАСПРЕДЕЛЕНИЕ ОШИБОК ПО ДОКУМЕНТУ:\n" ++ p3 ++
        "Ошибки распределены по всему документу\n" ++ p4 ++
        "ЧЕК-ЛИСТ ДЛЯ ИСПРАВЛЕНИЯ:\n" ++ p5 ++ "ИНСТРУКЦИЯ:\n" ++ p6 := by
  refine ⟨"Дата проверки: " ++ now ++ "\n" ++ ("Профиль проверки: " ++
      strOr profile "не указан" ++ "\n") ++ ("Файл: " ++
      (match fileName with | some n => n | none => "не указан") ++ "\n") ++
      (if !(jsTrim orderNumber == "") then "Номер приказа: " ++ jsTrim orderNumber ++ "\n"
       else "") ++ ("\n" ++ repeatChar '=' 60 ++ "\n\n"),
    "Всего нарушений: " ++ toString ((summary.getD defaultSummary).total.getD 0) ++ "\n" ++
      ("Критичных: " ++ toString ((summary.getD defaultSummary).critical.getD 0) ++ "\n") ++
      ("Предупреждений: " ++ toString ((summary.getD defaultSummary).warning.getD 0) ++ "\n") ++
      ("Информационных: " ++ toString ((summary.getD defaultSummary).info.getD 0) ++ "\n\n"),
    repeatChar '─' 40 ++ "\n",
    "\n" ++ repeatChar '=' 60 ++ "\n\n" ++ ("\n" ++ repeatChar '=' 60 ++ "\n\n"),
    repeatChar '─' 40 ++ "\n\n" ++ "\n\n",
    "1. Откройте документ в Microsoft Word или другом редакторе\n" ++
      ("2. Исправьте ошибки согласно списку выше\n" ++
       ("3. Отметьте галочкой исправленные пункты\n" ++
        ("4. Перепроверьте документ через VerifyFlow\n" ++
         "5. Сохраните исправленную версию\n"))), ?_⟩
  simp only [exportReport, exportHeader, summaryBlock, locationLines, locationCounts,
    issuesSection, commentsSection, checklistSection, exportFooter,
    List.foldl_nil, List.isEmpty_nil, List.length_nil, List.enum_nil, List.map_nil,
    strJoinNil, Nat.lt_irrefl, if_true, if_false, ite_true, ite_false,
    strAppendAssoc, strEmptyAppend, strAppendEmpty]

end VerifyFlow
